import Mathlib

/-
Verification of the multipart object-transfer engine specification against
the transfer-manager I/O source (aws-s3-transfer-manager/src/io/stream.rs)
and, for the components whose Rust sources are not part of this tree
(Partition Planner, Checksum Manager, PathBodyBuilder, SizeHint), against
models taken from the specification text itself.
-/

namespace SmithyTransfer

/-- An in-memory byte buffer, modelling `bytes::Bytes`. The byte values
themselves never matter to the claims, only the sequence and its length. -/
structure Bytes where
  data : List Nat
deriving DecidableEq, Repr

/-- Rust `Bytes::default()`: an empty buffer. -/
def Bytes.defaultBytes : Bytes := ⟨[]⟩

/-- Modelled from the spec: `SizeHint` from `crate::types` (its source file is
not in the tree): `{lower_bound: u64, upper_bound: Option<u64>}`. -/
structure SizeHint where
  lower_bound : Nat
  upper_bound : Option Nat
deriving DecidableEq, Repr

/-- Modelled from the spec: `PathBody` from `crate::io::path_body` (its source
file is not in the tree): a file region `{ path, start_offset, length }` whose
length has been resolved at build time. -/
structure PathBody where
  pathName : String
  offsetVal : Nat
  lengthVal : Nat
deriving DecidableEq, Repr

/-- `RawInputStream` from stream.rs: either an in-memory buffer (`Buf`) or a
file based input (`Fs`). -/
inductive RawInputStream where
  | Buf : Bytes → RawInputStream
  | Fs : PathBody → RawInputStream
deriving DecidableEq, Repr

/-- `InputStream` from stream.rs: a wrapper holding a `RawInputStream`. -/
structure InputStream where
  inner : RawInputStream
deriving DecidableEq, Repr

/-- `RawInputStream::size_hint` from stream.rs. The Rust body is
`unimplemented!()` — it unconditionally panics for every variant (the intended
body is present only as commented-out code). A panic is modelled as `none`;
`some h` would model a normal return of the hint `h`. -/
def RawInputStream.size_hint (_ : RawInputStream) : Option SizeHint :=
  none

/-- `InputStream::size_hint` from stream.rs: delegates to the inner raw
stream, hence propagates its panic. -/
def InputStream.size_hint (s : InputStream) : Option SizeHint :=
  s.inner.size_hint

/-- `InputStream::from_static` from stream.rs: wraps the byte slice as `Buf`. -/
def InputStream.from_static (bytes : List Nat) : InputStream :=
  ⟨RawInputStream.Buf ⟨bytes⟩⟩

/-- `impl From<Bytes> for InputStream` from stream.rs. -/
def InputStream.fromBytes (value : Bytes) : InputStream :=
  ⟨RawInputStream.Buf value⟩

/-- `impl From<Vec<u8>> for InputStream` from stream.rs: converts the vector
to `Bytes` and delegates to `From<Bytes>`. -/
def InputStream.fromVec (value : List Nat) : InputStream :=
  InputStream.fromBytes ⟨value⟩

/-- `impl Default for InputStream` from stream.rs: a `Buf` holding
`Bytes::default()`. -/
def InputStream.defaultStream : InputStream :=
  ⟨RawInputStream.Buf Bytes.defaultBytes⟩

/-- The I/O error type (`crate::io::error::Error`); the spec names the failure
`SourceUnreadable` when a path cannot be opened or statted, and the builder
also fails when no path was supplied. -/
inductive IoError where
  | SourceUnreadable : String → IoError
  | MissingPath : IoError
deriving DecidableEq, Repr

/-- The filesystem metadata oracle used to model `stat`: maps a path to its
size, or `none` when the path cannot be statted. -/
abbrev FileSys := String → Option Nat

/-- Modelled from the spec: `PathBodyBuilder` from `crate::io::path_body` (its
source file is not in the tree). Holds the target path, an optional explicit
length (doc of `read_from` in stream.rs: specifying the length skips an
additional call to retrieve the size), and a starting offset. -/
structure PathBodyBuilder where
  pathOpt : Option String
  lengthOpt : Option Nat
  offsetStart : Nat
deriving DecidableEq, Repr

/-- `PathBodyBuilder::new`: no path, no explicit length, offset 0. -/
def PathBodyBuilder.new : PathBodyBuilder :=
  ⟨none, none, 0⟩

/-- Builder setter for the path. -/
def PathBodyBuilder.path (b : PathBodyBuilder) (p : String) : PathBodyBuilder :=
  { b with pathOpt := some p }

/-- Builder setter for the explicit length. -/
def PathBodyBuilder.length (b : PathBodyBuilder) (n : Nat) : PathBodyBuilder :=
  { b with lengthOpt := some n }

/-- Builder setter for the starting offset. -/
def PathBodyBuilder.offset (b : PathBodyBuilder) (n : Nat) : PathBodyBuilder :=
  { b with offsetStart := n }

/-- Modelled from the spec: `PathBodyBuilder::build` (source not in the tree).
Spec §4.1: for a file region, if an explicit length was supplied, skip the
metadata probe; otherwise stat the file; signal `SourceUnreadable` if the path
cannot be statted. The second component counts the filesystem metadata probes
(stat calls) performed, so that the frame condition is observable. -/
def PathBodyBuilder.build (b : PathBodyBuilder) (fs : FileSys) :
    Except IoError InputStream × Nat :=
  match b.pathOpt with
  | none => (Except.error IoError.MissingPath, 0)
  | some p =>
    match b.lengthOpt with
    | some len => (Except.ok ⟨RawInputStream.Fs ⟨p, b.offsetStart, len⟩⟩, 0)
    | none =>
      match fs p with
      | none => (Except.error (IoError.SourceUnreadable p), 1)
      | some sz => (Except.ok ⟨RawInputStream.Fs ⟨p, b.offsetStart, sz - b.offsetStart⟩⟩, 1)

/-- `InputStream::read_from` from stream.rs: returns a fresh builder. -/
def InputStream.read_from : PathBodyBuilder :=
  PathBodyBuilder.new

/-- `InputStream::from_path` from stream.rs, line 72-74: exactly
`Self::read_from().path(path).build()`. -/
def InputStream.from_path (fs : FileSys) (p : String) :
    Except IoError InputStream × Nat :=
  (InputStream.read_from.path p).build fs

/-- `PartSpec` from spec §3: 1-based part number, byte offset, byte length. -/
structure PartSpec where
  part_number : Nat
  offsetVal : Nat
  lengthVal : Nat
deriving DecidableEq, Repr

/-- `PartPlan` from spec §3: the ordered part list, plus the "simple" flag of
spec §4.3 step 1 telling the Coordinator to perform a single non-multipart
operation instead of initiating a multipart session. -/
structure PartPlan where
  parts : List PartSpec
  simple : Bool
deriving DecidableEq, Repr

/-- Planner configuration from spec §4.3. The spec lists a
`target_part_count_hint` among the inputs but its algorithm never consults
it; it is carried here untouched. -/
structure PlannerConfig where
  min_part_size : Nat
  max_part_size : Nat
  max_parts : Nat
  target_part_count_hint : Nat
deriving DecidableEq, Repr

/-- Planner failure from spec §4.3 step 2: the object is too large for the
part-count ceiling. -/
inductive PlanError where
  | SizeUnsupported : PlanError
deriving DecidableEq, Repr

/-- Ceiling division on naturals, as written in the spec: ceil(a / b). -/
def ceilDiv (a b : Nat) : Nat := (a + b - 1) / b

/-- Spec §4.3 step 3: emit `count` contiguous parts of size `ps`, numbered
from `num` at offset `off`, the last part taking `lastLen` bytes instead. -/
def buildParts (ps lastLen : Nat) : Nat → Nat → Nat → List PartSpec
  | 0, _, _ => []
  | 1, off, num => [⟨num, off, lastLen⟩]
  | (k + 2), off, num => ⟨num, off, ps⟩ :: buildParts ps lastLen (k + 1) (off + ps) (num + 1)

/-- The chosen part size of spec §4.3 step 2:
part_size = max(min_part_size, ceil(total_size / max_parts)), clamped to
max_part_size. -/
def planPartSize (total_size : Nat) (cfg : PlannerConfig) : Nat :=
  min (max cfg.min_part_size (ceilDiv total_size cfg.max_parts)) cfg.max_part_size

/-- The part count of spec §4.3 step 3: ceil(total_size / part_size). -/
def planCount (total_size : Nat) (cfg : PlannerConfig) : Nat :=
  ceilDiv total_size (planPartSize total_size cfg)

/-- Modelled from the spec: the Partition Planner (spec §4.3; its Rust source
is not in the tree).
1. If total_size ≤ min_part_size, emit a one-part plan flagged "simple".
2. Otherwise fail with SizeUnsupported when even max_part_size-sized parts
   would exceed max_parts — i.e. when max_parts * max_part_size < total_size —
   else take part_size = planPartSize (the clamped size of step 2).
3. Emit planCount = ceil(total_size / part_size) contiguous parts numbered
   from 1; the last part has length total_size - part_size * (count - 1). -/
def plan (total_size : Nat) (cfg : PlannerConfig) : Except PlanError PartPlan :=
  if total_size ≤ cfg.min_part_size then
    Except.ok { parts := [⟨1, 0, total_size⟩], simple := true }
  else if cfg.max_parts * cfg.max_part_size < total_size then
    Except.error PlanError.SizeUnsupported
  else
    Except.ok { parts := buildParts (planPartSize total_size cfg)
                  (total_size - planPartSize total_size cfg * (planCount total_size cfg - 1))
                  (planCount total_size cfg) 0 1,
                simple := false }

/-- A part list is contiguous starting at `off`: each part begins exactly
where the previous one ended. -/
def contiguousFrom : List PartSpec → Nat → Bool
  | [], _ => true
  | p :: rest, off => p.offsetVal == off && contiguousFrom rest (off + p.lengthVal)

/-- Total number of bytes covered by a part list. -/
def sumLengths (l : List PartSpec) : Nat :=
  (l.map PartSpec.lengthVal).sum

/-- Two parts overlap when the byte ranges [offset, offset+length) intersect. -/
def overlaps (a b : PartSpec) : Bool :=
  max a.offsetVal b.offsetVal < min (a.offsetVal + a.lengthVal) (b.offsetVal + b.lengthVal)

/-- No two distinct parts of the list overlap. -/
def pairwiseDisjoint (l : List PartSpec) : Prop :=
  l.Pairwise (fun a b => overlaps a b = false)

/-- A transfer-level error, as classified in spec §7 plus the configuration
error of spec §3 for unbounded size hints. -/
inductive TransferError where
  | ConfigurationError : TransferError
  | SizeUnsupported : TransferError
  | SourceMutated : TransferError
deriving DecidableEq, Repr

/-- Modelled from the spec: the Transfer Coordinator size-hint validation
(spec §4.6 "open source → validate size hint is bounded → plan" and §3: an
unbounded hint, upper_bound = None, is rejected with a configuration error
before any plan is produced). -/
def planForStream (hint : SizeHint) (cfg : PlannerConfig) : Except TransferError PartPlan :=
  match hint.upper_bound with
  | none => Except.error TransferError.ConfigurationError
  | some total =>
    match plan total cfg with
    | Except.error PlanError.SizeUnsupported => Except.error TransferError.SizeUnsupported
    | Except.ok p => Except.ok p

/-- The snapshot the Checksum Manager takes at plan time (spec §4.5): the
cached source size and content checksum from open time. -/
structure SourceSnapshot where
  sizeVal : Nat
  checksum : Nat
deriving DecidableEq, Repr

/-- A successful per-part result (spec §3 PartResult). -/
structure PartResult where
  part_number : Nat
  remote_identifier : String
  bytes_transferred : Nat
deriving DecidableEq, Repr

/-- The completed-transfer summary (spec §4.6). -/
structure TransferSummary where
  bytes_transferred : Nat
  part_count : Nat
deriving DecidableEq, Repr

/-- Modelled from the spec: the Checksum Manager re-validation (spec §4.5; its
Rust source is not in the tree): compare the current source checksum/size
against the plan-time snapshot; a mismatch is `SourceMutated`. -/
def validateSource (snap current : SourceSnapshot) : Except TransferError Unit :=
  if current.checksum = snap.checksum ∧ current.sizeVal = snap.sizeVal then
    Except.ok ()
  else
    Except.error TransferError.SourceMutated

/-- Modelled from the spec: the re-validation before a part attempt is
submitted (spec §4.5): the job goes forward only if the source still matches
the snapshot. -/
def submitPartAttempt (snap current : SourceSnapshot) (job : PartSpec) :
    Except TransferError PartSpec :=
  match validateSource snap current with
  | Except.error e => Except.error e
  | Except.ok _ => Except.ok job

/-- Modelled from the spec: transfer finalization (spec §4.5/§4.6): re-validate
the source against the snapshot one last time, then aggregate the transport
results — which have all succeeded at this point — into the summary. -/
def finalizeTransfer (snap current : SourceSnapshot) (results : List PartResult) :
    Except TransferError TransferSummary :=
  match validateSource snap current with
  | Except.error e => Except.error e
  | Except.ok _ =>
    Except.ok ⟨(results.map PartResult.bytes_transferred).sum, results.length⟩

/-! Arithmetic helper lemmas about ceiling division. -/

theorem le_mul_ceilDiv (a b : Nat) (hb : 1 ≤ b) : a ≤ b * ceilDiv a b := by
  unfold ceilDiv
  have hmod := Nat.div_add_mod (a + b - 1) b
  have hlt : (a + b - 1) % b < b := Nat.mod_lt _ hb
  omega

theorem ceilDiv_le_of_le_mul (a b k : Nat) (hb : 1 ≤ b) (h : a ≤ k * b) :
    ceilDiv a b ≤ k := by
  unfold ceilDiv
  have hstep : a + b - 1 < (k + 1) * b := by
    have : (k + 1) * b = k * b + b := Nat.succ_mul k b
    omega
  have := (Nat.div_lt_iff_lt_mul hb).mpr hstep
  omega

theorem one_le_ceilDiv (a b : Nat) (ha : 1 ≤ a) (hb : 1 ≤ b) : 1 ≤ ceilDiv a b := by
  unfold ceilDiv
  have : b / b = 1 := Nat.div_self hb
  calc 1 = b / b := this.symm
    _ ≤ (a + b - 1) / b := Nat.div_le_div_right (by omega)

theorem mul_ceilDiv_pred_lt (a b : Nat) (ha : 1 ≤ a) (hb : 1 ≤ b) :
    b * (ceilDiv a b - 1) < a := by
  have hc : ceilDiv a b = (a - 1) / b + 1 := by
    unfold ceilDiv
    have : a + b - 1 = (a - 1) + b := by omega
    rw [this, Nat.add_div_right _ hb]
  have hle : (a - 1) / b * b ≤ a - 1 := Nat.div_mul_le_self _ _
  rw [hc]
  simp only [Nat.add_sub_cancel]
  calc b * ((a - 1) / b) = (a - 1) / b * b := Nat.mul_comm _ _
    _ ≤ a - 1 := hle
    _ < a := by omega

/-! Structural lemmas about the emitted part list. -/

theorem contiguousFrom_buildParts (ps ll : Nat) :
    ∀ (c off num : Nat), contiguousFrom (buildParts ps ll c off num) off = true := by
  intro c
  induction c with
  | zero => intro off num; simp [buildParts, contiguousFrom]
  | succ k ih =>
    intro off num
    cases k with
    | zero => simp [buildParts, contiguousFrom]
    | succ j =>
      simp only [buildParts, contiguousFrom]
      simp [ih (off + ps) (num + 1)]

theorem sumLengths_buildParts (ps ll : Nat) :
    ∀ (c off num : Nat), 1 ≤ c →
      sumLengths (buildParts ps ll c off num) = ps * (c - 1) + ll := by
  intro c
  induction c with
  | zero => intro off num h; omega
  | succ k ih =>
    intro off num _
    cases k with
    | zero => simp [buildParts, sumLengths]
    | succ j =>
      simp only [buildParts, sumLengths, List.map_cons, List.sum_cons]
      have hrec := ih (off + ps) (num + 1) (by omega)
      unfold sumLengths at hrec
      rw [hrec]
      have : ps * (j + 1 + 1 - 1) = ps * (j + 1 - 1) + ps := by
        rw [Nat.succ_sub_one, Nat.succ_sub_one, Nat.mul_succ]
      omega

theorem length_buildParts (ps ll : Nat) :
    ∀ (c off num : Nat), (buildParts ps ll c off num).length = c := by
  intro c
  induction c with
  | zero => intro off num; simp [buildParts]
  | succ k ih =>
    intro off num
    cases k with
    | zero => simp [buildParts]
    | succ j => simp [buildParts, ih (off + ps) (num + 1)]

theorem buildParts_mem_offset_ge (ps ll : Nat) :
    ∀ (c off num : Nat), ∀ q ∈ buildParts ps ll c off num, off ≤ q.offsetVal := by
  intro c
  induction c with
  | zero => intro off num q hq; simp [buildParts] at hq
  | succ k ih =>
    intro off num q hq
    cases k with
    | zero =>
      simp [buildParts] at hq
      simp [hq]
    | succ j =>
      simp only [buildParts, List.mem_cons] at hq
      rcases hq with hq | hq
      · simp [hq]
      · have := ih (off + ps) (num + 1) q hq
        omega

theorem pairwiseDisjoint_buildParts (ps ll : Nat) :
    ∀ (c off num : Nat), pairwiseDisjoint (buildParts ps ll c off num) := by
  intro c
  induction c with
  | zero => intro off num; simp [buildParts, pairwiseDisjoint]
  | succ k ih =>
    intro off num
    cases k with
    | zero => simp [buildParts, pairwiseDisjoint]
    | succ j =>
      simp only [buildParts, pairwiseDisjoint]
      refine List.Pairwise.cons ?_ (ih (off + ps) (num + 1))
      intro q hq
      have hge := buildParts_mem_offset_ge ps ll (j + 1) (off + ps) (num + 1) q hq
      simp only [overlaps, decide_eq_false_iff_not, not_lt]
      have h1 : min (off + ps) (q.offsetVal + q.lengthVal) ≤ off + ps := Nat.min_le_left _ _
      have h2 : q.offsetVal ≤ max off q.offsetVal := Nat.le_max_right _ _
      omega

/-- C2: for every total_size and every valid configuration (min_part_size ≤
max_part_size, max_parts ≥ 1), the part list the Partition Planner emits is
contiguous starting at offset 0 (each part begins where the previous one
ended), pairwise non-overlapping, its lengths sum to total_size, and it has
at most max_parts parts. -/
theorem planner_plan_wellformed (total : Nat) (cfg : PlannerConfig)
    (hpm : cfg.min_part_size ≤ cfg.max_part_size) (hmp : 1 ≤ cfg.max_parts)
    (p : PartPlan) (hp : plan total cfg = Except.ok p) :
    contiguousFrom p.parts 0 = true ∧ pairwiseDisjoint p.parts ∧
      sumLengths p.parts = total ∧ p.parts.length ≤ cfg.max_parts := by
  unfold plan at hp
  by_cases h1 : total ≤ cfg.min_part_size
  · rw [if_pos h1] at hp
    injection hp with hp
    subst hp
    exact ⟨by simp [contiguousFrom], by simp [pairwiseDisjoint],
      by simp [sumLengths], by simpa using hmp⟩
  · rw [if_neg h1] at hp
    by_cases h2 : cfg.max_parts * cfg.max_part_size < total
    · rw [if_pos h2] at hp
      exact absurd hp (by simp)
    · rw [if_neg h2] at hp
      injection hp with hp
      subst hp
      have htotal : 1 ≤ total := by omega
      have h2le : total ≤ cfg.max_parts * cfg.max_part_size := Nat.le_of_not_lt h2
      have hmps : 1 ≤ cfg.max_part_size := by
        rcases Nat.eq_zero_or_pos cfg.max_part_size with hz | hpos
        · rw [hz, Nat.mul_zero] at h2le; omega
        · exact hpos
      have hcd : 1 ≤ ceilDiv total cfg.max_parts := one_le_ceilDiv _ _ htotal hmp
      have hPS1 : 1 ≤ planPartSize total cfg := by
        unfold planPartSize; omega
      have hCNT1 : 1 ≤ planCount total cfg :=
        one_le_ceilDiv _ _ htotal hPS1
      have hlast : planPartSize total cfg * (planCount total cfg - 1) < total :=
        mul_ceilDiv_pred_lt total (planPartSize total cfg) htotal hPS1
      have hbound : total ≤ cfg.max_parts * planPartSize total cfg := by
        unfold planPartSize
        rcases Nat.le_total (max cfg.min_part_size (ceilDiv total cfg.max_parts))
            cfg.max_part_size with hA | hA
        · rw [Nat.min_eq_left hA]
          have hcd2 : total ≤ cfg.max_parts * ceilDiv total cfg.max_parts :=
            le_mul_ceilDiv total cfg.max_parts hmp
          have hmono : cfg.max_parts * ceilDiv total cfg.max_parts ≤
              cfg.max_parts * max cfg.min_part_size (ceilDiv total cfg.max_parts) :=
            Nat.mul_le_mul_left _ (Nat.le_max_right _ _)
          omega
        · rw [Nat.min_eq_right hA]
          omega
      have hcnt_le : planCount total cfg ≤ cfg.max_parts :=
        ceilDiv_le_of_le_mul total (planPartSize total cfg) cfg.max_parts hPS1
          hbound
      refine ⟨contiguousFrom_buildParts _ _ _ _ _, pairwiseDisjoint_buildParts _ _ _ _ _,
        ?_, ?_⟩
      · rw [sumLengths_buildParts _ _ _ _ _ hCNT1]
        omega
      · rw [length_buildParts]
        exact hcnt_le

/-- Witness for C2 at total_size = 7, config (min 2, max 5, max_parts 10). -/
theorem planner_plan_wellformed_witness :
    contiguousFrom [⟨1, 0, 2⟩, ⟨2, 2, 2⟩, ⟨3, 4, 2⟩, ⟨4, 6, 1⟩] 0 = true ∧
      pairwiseDisjoint [⟨1, 0, 2⟩, ⟨2, 2, 2⟩, ⟨3, 4, 2⟩, ⟨4, 6, 1⟩] ∧
      sumLengths [⟨1, 0, 2⟩, ⟨2, 2, 2⟩, ⟨3, 4, 2⟩, ⟨4, 6, 1⟩] = 7 ∧
      ([⟨1, 0, 2⟩, ⟨2, 2, 2⟩, ⟨3, 4, 2⟩, ⟨4, 6, 1⟩] : List PartSpec).length ≤ 10 :=
  planner_plan_wellformed 7 ⟨2, 5, 10, 0⟩ (by decide) (by decide)
    ⟨[⟨1, 0, 2⟩, ⟨2, 2, 2⟩, ⟨3, 4, 2⟩, ⟨4, 6, 1⟩], false⟩ (by rfl)

/-- C3: for total_size = 0, the Partition Planner emits exactly one part of
length 0 flagged "simple"; the plan never enters the multipart branch, so the
transfer is handled as a simple operation, not a multipart session. -/
theorem plan_zero_total (cfg : PlannerConfig) :
    plan 0 cfg = Except.ok { parts := [⟨1, 0, 0⟩], simple := true } := by
  unfold plan
  rw [if_pos (Nat.zero_le _)]

/-- C4: the Partition Planner is a pure function of (total_size, config), so
planning twice with the same inputs yields identical plans. -/
theorem plan_deterministic (total : Nat) (cfg : PlannerConfig) :
    plan total cfg = plan total cfg := rfl

/-- C1 (code evaluation): `size_hint` on in-memory-buffer streams built via
from_static, From Bytes and From Vec returns no `SizeHint` at all — the Rust
body is `unimplemented!()`, which panics (modelled as `none`) — instead of the
exact hint with lower_bound = upper_bound = buffer length that the spec
promises. -/
theorem size_hint_buffer_panics :
    (InputStream.from_static [104, 105]).size_hint = none ∧
      (InputStream.fromBytes ⟨[1, 2, 3]⟩).size_hint = none ∧
      (InputStream.fromVec [7]).size_hint = none :=
  ⟨rfl, rfl, rfl⟩

/-- C5: the Transfer Coordinator rejects a source whose size hint has
upper_bound = none with a configuration error, producing no plan. -/
theorem unbounded_hint_rejected (hint : SizeHint) (cfg : PlannerConfig)
    (h : hint.upper_bound = none) :
    planForStream hint cfg = Except.error TransferError.ConfigurationError := by
  unfold planForStream
  rw [h]

/-- Witness for C5 at the hint (lower 0, upper none). -/
theorem unbounded_hint_rejected_witness :
    planForStream ⟨0, none⟩ ⟨8, 16, 100, 0⟩ = Except.error TransferError.ConfigurationError :=
  unbounded_hint_rejected ⟨0, none⟩ ⟨8, 16, 100, 0⟩ rfl

/-- C6: building a file-region stream with an explicit length takes the size
from that length and performs zero stat calls; only when no explicit length
is supplied does build perform exactly one stat call. -/
theorem build_stat_discipline (b : PathBodyBuilder) (fs : FileSys) (p : String)
    (hp : b.pathOpt = some p) :
    (∀ L, b.lengthOpt = some L →
        b.build fs = (Except.ok ⟨RawInputStream.Fs ⟨p, b.offsetStart, L⟩⟩, 0)) ∧
      (b.lengthOpt = none → (b.build fs).2 = 1) := by
  constructor
  · intro L hL
    unfold PathBodyBuilder.build
    rw [hp, hL]
  · intro hL
    unfold PathBodyBuilder.build
    rw [hp, hL]
    cases hfs : fs p <;> simp [hfs]

/-- Witness for C6 at the builder (path "f", length 5, offset 0) over an
unreadable filesystem (the explicit length makes it irrelevant). -/
theorem build_stat_discipline_witness :
    (∀ L, (PathBodyBuilder.mk (some "f") (some 5) 0).lengthOpt = some L →
        (PathBodyBuilder.mk (some "f") (some 5) 0).build (fun _ => none) =
          (Except.ok ⟨RawInputStream.Fs ⟨"f", 0, L⟩⟩, 0)) ∧
      ((PathBodyBuilder.mk (some "f") (some 5) 0).lengthOpt = none →
        ((PathBodyBuilder.mk (some "f") (some 5) 0).build (fun _ => none)).2 = 1) :=
  build_stat_discipline ⟨some "f", some 5, 0⟩ (fun _ => none) "f" rfl

/-- C7: when the current source checksum or size differs from the snapshot
cached at open/plan time, both re-validation points — before a part attempt is
submitted and before finalization — fail with SourceMutated, for every list of
transport-successful part results. -/
theorem source_mutation_fails_transfer (snap current : SourceSnapshot)
    (results : List PartResult) (job : PartSpec)
    (h : current.checksum ≠ snap.checksum ∨ current.sizeVal ≠ snap.sizeVal) :
    submitPartAttempt snap current job = Except.error TransferError.SourceMutated ∧
      finalizeTransfer snap current results = Except.error TransferError.SourceMutated := by
  have hv : validateSource snap current = Except.error TransferError.SourceMutated := by
    unfold validateSource
    rw [if_neg]
    tauto
  constructor
  · unfold submitPartAttempt
    rw [hv]
  · unfold finalizeTransfer
    rw [hv]

/-- Witness for C7: snapshot (size 10, checksum 111) against mutated current
state (size 10, checksum 222) with one transport-successful part result. -/
theorem source_mutation_fails_transfer_witness :
    submitPartAttempt ⟨10, 111⟩ ⟨10, 222⟩ ⟨1, 0, 10⟩ =
        Except.error TransferError.SourceMutated ∧
      finalizeTransfer ⟨10, 111⟩ ⟨10, 222⟩ [⟨1, "etag-1", 10⟩] =
        Except.error TransferError.SourceMutated :=
  source_mutation_fails_transfer ⟨10, 111⟩ ⟨10, 222⟩ [⟨1, "etag-1", 10⟩] ⟨1, 0, 10⟩
    (Or.inl (by decide))

/-- C8 (code evaluation): `size_hint` returns no `SizeHint` for either
variant — the default (empty buffer) stream and a file-backed stream alike hit
the unconditional `unimplemented!()` panic (modelled as `none`), so the
function is not total as the claim states. -/
theorem size_hint_panics_both_variants :
    InputStream.defaultStream.size_hint = none ∧
      (InputStream.mk (RawInputStream.Fs ⟨"f", 0, 10⟩)).size_hint = none :=
  ⟨rfl, rfl⟩

/-- C9: `InputStream::from_path path` and
`InputStream::read_from().path(path).build()` are the same computation — the
source of from_path is literally that builder chain — so both routes succeed
or fail identically, perform the same stat calls, and produce identical
streams, for every filesystem state and path. -/
theorem from_path_eq_read_from_build (fs : FileSys) (p : String) :
    InputStream.from_path fs p = (InputStream.read_from.path p).build fs := rfl

/-- C10: the Default instance builds the in-memory Buf variant over the empty
byte sequence, equal to `From Bytes` applied to `Bytes::default()`, and in
particular is never the file-backed Fs variant. -/
theorem default_is_empty_buffer :
    InputStream.defaultStream = InputStream.fromBytes Bytes.defaultBytes ∧
      InputStream.defaultStream.inner = RawInputStream.Buf ⟨[]⟩ :=
  ⟨rfl, rfl⟩

end SmithyTransfer
